import Mathlib

/-!
Verification of the time MCP server (src/src/index.ts).

The whole observable behaviour of the server lives in two request handlers
installed by setupToolHandlers: the ListTools handler (a constant catalog,
lines 38-79) and the CallTool handler (the dispatcher, lines 82-187).  The
embedding below translates the dispatcher into a pure function over

* an opaque Platform record bundling the host date/locale facilities the
  code calls (Date and Intl methods), and
* a Clock, a stream of instants indexed by how many times new Date() has
  been executed so far; every occurrence of new Date() in the source reads
  the stream at the current index and advances the index, which lets us
  state and prove the single-sampling invariant.

Fallible platform calls (locale formatting with an explicit time zone,
which throws a RangeError on an invalid identifier) are modelled with
Except, mirroring the try/catch structure of the handler.
-/

set_option autoImplicit false

namespace TimeServer

/-- One point in time as produced by new Date(): it is identified by its
epoch-milliseconds value, which is what Date.prototype.getTime returns.
All calendar, locale and time-zone interpretation of an instant is
delegated to the host platform (see Platform). -/
structure Instant where
  ms : Int
deriving DecidableEq

/-- The host date/time and locale facilities invoked by index.ts, treated
as opaque oracles.  Field by field:
toISOString is Date.prototype.toISOString;
toLocaleStringDefault is now.toLocaleString() with no arguments (line 134);
toLocaleString12 / toLocaleString24 are now.toLocaleString with en-US and
hour12 true / false (lines 111, 113);
weekdayLong is now.toLocaleDateString with en-US and weekday long (line 135);
localeDateString is now.toLocaleDateString with en-US (line 136);
getFullYear .. getTimezoneOffset are the corresponding Date getters
(getMonth is 0-based, getTimezoneOffset counts minutes behind UTC as
positive, both as on the platform);
validTimezone tells whether the platform accepts a string as a time-zone
identifier; formatWithTimezone tz hour12 now is now.toLocaleString with
en-US, timeZone tz, numeric date and time fields and the given hour12 flag
(lines 95-105), defined only when validTimezone tz holds;
formatWithTimezoneName tz now is the Intl.DateTimeFormat of lines 148-158
applied to now (same fields plus a short time-zone name);
invalidTimezoneMessage tz is the message of the RangeError the platform
throws when handed the invalid identifier tz. -/
structure Platform where
  toISOString : Instant → String
  toLocaleStringDefault : Instant → String
  toLocaleString12 : Instant → String
  toLocaleString24 : Instant → String
  weekdayLong : Instant → String
  localeDateString : Instant → String
  getFullYear : Instant → Int
  getMonth : Instant → Int
  getDate : Instant → Int
  getHours : Instant → Int
  getMinutes : Instant → Int
  getSeconds : Instant → Int
  getTimezoneOffset : Instant → Int
  validTimezone : String → Bool
  formatWithTimezone : String → Bool → Instant → String
  formatWithTimezoneName : String → Instant → String
  invalidTimezoneMessage : String → String

/-- The arguments mapping of an invocation request: an ordered set of
string-valued entries keyed by parameter name (request.params.arguments).
A missing key models both an absent property and an absent arguments
object. -/
abbrev Args := List (String × String)

/-- Property access args[key]: the value stored under the first occurrence
of key, if any. -/
def lookupArg (args : Args) (key : String) : Option String :=
  match args with
  | [] => none
  | (k, v) :: rest => if k = key then some v else lookupArg rest key

/-- Parameter resolution args?.key or dflt (lines 87, 88, 128): a missing
key or a falsy (empty) string value yields the default, any other value is
passed through unchanged. -/
def resolveArg (args : Args) (key dflt : String) : String :=
  match lookupArg args key with
  | some v => if v = "" then dflt else v
  | none => dflt

/-- One item of an envelope's content array; type is always the literal
"text" in this server. -/
structure ContentItem where
  type : String
  text : String
deriving DecidableEq

/-- The uniform response envelope returned by the CallTool handler.  The
source omits the isError property on success; an absent flag is modelled
as false. -/
structure Envelope where
  content : List ContentItem
  isError : Bool
deriving DecidableEq

/-- An envelope holding a single text content item (the only shape this
server ever builds, lines 117-124, 165-172 and 177-185). -/
def textEnvelope (text : String) (isError : Bool) : Envelope :=
  { content := [{ type := "text", text := text }], isError := isError }

/-- A JSON value occurring in the get_time_info record: the record's
fields are all strings or (integral) numbers. -/
inductive JVal where
  | jstr : String → JVal
  | jint : Int → JVal
deriving DecidableEq

/-- Hexadecimal digit character, used for JSON control-character escapes. -/
def hexDigit (n : Nat) : Char :=
  if n < 10 then Char.ofNat (48 + n) else Char.ofNat (87 + n)

/-- JSON escaping of a single character, as performed by JSON.stringify:
quote and backslash are escaped, the control characters with short escape
sequences use them, the remaining control characters use a u-escape. -/
def jsonEscapeChar (ch : Char) : String :=
  if ch = '"' then "\\\""
  else if ch = '\\' then "\\\\"
  else if ch = '\x08' then "\\b"
  else if ch = '\x0c' then "\\f"
  else if ch = '\n' then "\\n"
  else if ch = '\r' then "\\r"
  else if ch = '\t' then "\\t"
  else if ch.toNat < 32 then
    "\\u00" ++ String.singleton (hexDigit (ch.toNat / 16))
            ++ String.singleton (hexDigit (ch.toNat % 16))
  else String.singleton ch

/-- JSON escaping of a string's characters. -/
def jsonEscape (s : String) : String :=
  String.join (s.toList.map jsonEscapeChar)

/-- A JSON string literal: the escaped text between double quotes. -/
def jsonQuote (s : String) : String :=
  "\"" ++ jsonEscape s ++ "\""

/-- Rendering of a single JSON value. -/
def JVal.render : JVal → String
  | .jstr s => jsonQuote s
  | .jint n => toString n

/-- JSON.stringify(obj, null, 2) for a flat object with the given ordered
fields (line 169): each field on its own line indented by two spaces,
fields separated by commas, the whole wrapped in braces. -/
def jsonStringify2 (fields : List (String × JVal)) : String :=
  match fields with
  | [] => "\x7b\x7d"
  | _ =>
    "\x7b\n"
      ++ String.intercalate ",\n"
           (fields.map (fun f => "  " ++ jsonQuote f.1 ++ ": " ++ f.2.render))
      ++ "\n\x7d"

/-- Declared parameter of an operation, as serialized in the catalog's
inputSchema.properties entries. -/
structure ParamSpec where
  name : String
  type : String
  description : String
  allowedValues : Option (List String)
  defaultValue : Option String
deriving DecidableEq

/-- One catalog entry of the ListTools response. -/
structure OperationDescriptor where
  name : String
  description : String
  params : List ParamSpec
  additionalProps : Bool
deriving DecidableEq

/-- The operation catalog returned by the ListTools handler (lines 38-79),
a constant: get_current_time with parameters timezone and format, then
get_time_info with parameter timezone. -/
def listOperations : List OperationDescriptor :=
  [ { name := "get_current_time"
    , description := "Get the current date and time"
    , params :=
        [ { name := "timezone"
          , type := "string"
          , description := "Timezone (optional, defaults to system timezone)"
          , allowedValues := none
          , defaultValue := some "system" }
        , { name := "format"
          , type := "string"
          , description := "Time format: \"12hour\", \"24hour\", or \"iso\" (default: 12hour)"
          , allowedValues := some ["12hour", "24hour", "iso"]
          , defaultValue := some "12hour" } ]
    , additionalProps := false }
  , { name := "get_time_info"
    , description := "Get detailed time information including timezone, day of week, etc."
    , params :=
        [ { name := "timezone"
          , type := "string"
          , description := "Timezone (optional, defaults to system timezone)"
          , allowedValues := none
          , defaultValue := some "system" } ]
    , additionalProps := false } ]

/-- A clock: the stream of instants that successive executions of
new Date() would observe. -/
abbrev Clock := Nat → Instant

/-- One execution of new Date() when k samples were taken before: the
observed instant together with the advanced sample index. -/
def newDate (c : Clock) (k : Nat) : Instant × Nat :=
  (c k, k + 1)

/-- The timeString computation of the get_current_time handler
(lines 91-115).  When the resolved timezone is not the sentinel "system"
the instant is formatted for that named zone, with hour12 set exactly when
format is "12hour"; the platform call throws on an invalid identifier
(Except.error, not caught in this handler).  Otherwise format selects the
ISO, 24-hour or 12-hour rendering in the system zone. -/
def currentTimeString (p : Platform) (now : Instant) (timezone format : String) :
    Except String String :=
  if timezone ≠ "system" then
    if p.validTimezone timezone then
      Except.ok (p.formatWithTimezone timezone (format == "12hour") now)
    else
      Except.error (p.invalidTimezoneMessage timezone)
  else
    if format = "iso" then Except.ok (p.toISOString now)
    else if format = "24hour" then Except.ok (p.toLocaleString24 now)
    else Except.ok (p.toLocaleString12 now)

/-- The twelve timezone-independent fields of the get_time_info record, in
the insertion order of lines 131-144. -/
def timeInfoBase (p : Platform) (now : Instant) : List (String × JVal) :=
  [ ("timestamp", JVal.jint now.ms)
  , ("iso_string", JVal.jstr (p.toISOString now))
  , ("local_time", JVal.jstr (p.toLocaleStringDefault now))
  , ("day_of_week", JVal.jstr (p.weekdayLong now))
  , ("date", JVal.jstr (p.localeDateString now))
  , ("year", JVal.jint (p.getFullYear now))
  , ("month", JVal.jint (p.getMonth now + 1))
  , ("day", JVal.jint (p.getDate now))
  , ("hour", JVal.jint (p.getHours now))
  , ("minute", JVal.jint (p.getMinutes now))
  , ("second", JVal.jint (p.getSeconds now))
  , ("timezone_offset", JVal.jint (p.getTimezoneOffset now)) ]

/-- The full get_time_info record (lines 131-163).  For a non-"system"
timezone the handler tries the named-zone formatter: on success it appends
timezone_time and requested_timezone, on failure (invalid identifier) it
catches locally and appends timezone_error instead; field insertion order
is preserved by the serialization. -/
def timeInfoRecord (p : Platform) (now : Instant) (timezone : String) :
    List (String × JVal) :=
  if timezone ≠ "system" then
    if p.validTimezone timezone then
      timeInfoBase p now
        ++ [ ("timezone_time", JVal.jstr (p.formatWithTimezoneName timezone now))
           , ("requested_timezone", JVal.jstr timezone) ]
    else
      timeInfoBase p now
        ++ [ ("timezone_error", JVal.jstr ("Invalid timezone: " ++ timezone)) ]
  else
    timeInfoBase p now

/-- The try-block of the CallTool handler (lines 85-175), threading the
new Date() sample index: dispatch on the tool name, resolve the declared
parameters with their defaults, sample the clock once inside each handler
and build the success envelope; an unknown name throws
"Unknown tool: name" (line 175). -/
def callToolBody (p : Platform) (c : Clock) (k : Nat) (name : String) (args : Args) :
    Except String Envelope × Nat :=
  if name = "get_current_time" then
    let timezone := resolveArg args "timezone" "system"
    let format := resolveArg args "format" "12hour"
    let (now, k1) := newDate c k
    match currentTimeString p now timezone format with
    | Except.ok ts => (Except.ok (textEnvelope ("Current time: " ++ ts) false), k1)
    | Except.error e => (Except.error e, k1)
  else if name = "get_time_info" then
    let timezone := resolveArg args "timezone" "system"
    let (now, k1) := newDate c k
    (Except.ok (textEnvelope (jsonStringify2 (timeInfoRecord p now timezone)) false), k1)
  else
    (Except.error ("Unknown tool: " ++ name), k)

/-- The complete CallTool handler (lines 82-187): run the try-block from
sample index 0 and convert any thrown failure into a failure envelope
whose text is "Error: " followed by the failure's message (lines 176-186).
Returns the envelope together with the number of clock samples taken. -/
def invokeImpl (p : Platform) (c : Clock) (name : String) (args : Args) :
    Envelope × Nat :=
  match callToolBody p c 0 name args with
  | (Except.ok env, k) => (env, k)
  | (Except.error msg, k) => (textEnvelope ("Error: " ++ msg) true, k)

/-- The envelope the dispatcher returns for an invocation. -/
def invoke (p : Platform) (c : Clock) (name : String) (args : Args) : Envelope :=
  (invokeImpl p c name args).1

/-- The number of times an invocation executes new Date(). -/
def sampleCount (p : Platform) (c : Clock) (name : String) (args : Args) : Nat :=
  (invokeImpl p c name args).2

/-- A concrete platform instance used to evaluate the dispatcher on closed
inputs: every oracle answers with a tagged string recording its arguments,
and exactly the identifiers UTC and Asia/Tokyo are accepted as valid. -/
def testPlatform : Platform :=
  { toISOString := fun i => "ISO(" ++ toString i.ms ++ ")"
  , toLocaleStringDefault := fun i => "LOCDEF(" ++ toString i.ms ++ ")"
  , toLocaleString12 := fun i => "LOC12(" ++ toString i.ms ++ ")"
  , toLocaleString24 := fun i => "LOC24(" ++ toString i.ms ++ ")"
  , weekdayLong := fun i => "WD(" ++ toString i.ms ++ ")"
  , localeDateString := fun i => "DATE(" ++ toString i.ms ++ ")"
  , getFullYear := fun _ => 2024
  , getMonth := fun _ => 0
  , getDate := fun _ => 15
  , getHours := fun _ => 10
  , getMinutes := fun _ => 30
  , getSeconds := fun _ => 0
  , getTimezoneOffset := fun _ => 300
  , validTimezone := fun tz => tz == "UTC" || tz == "Asia/Tokyo"
  , formatWithTimezone := fun tz h12 i =>
      "TZ(" ++ tz ++ "," ++ toString h12 ++ "," ++ toString i.ms ++ ")"
  , formatWithTimezoneName := fun tz i =>
      "TZN(" ++ tz ++ "," ++ toString i.ms ++ ")"
  , invalidTimezoneMessage := fun tz => "Invalid time zone specified: " ++ tz }

/-- A concrete clock for closed evaluations. -/
def testClock : Clock := fun k => { ms := 1000 + Int.ofNat k }

end TimeServer

namespace TimeServer

/-! Helper lemmas about parameter resolution and the dispatcher. -/

/-- Resolution with a non-empty default never produces the empty string. -/
theorem resolveArg_ne_empty (args : Args) (key dflt : String) (h : dflt ≠ "") :
    resolveArg args key dflt ≠ "" := by
  unfold resolveArg
  cases lookupArg args key with
  | none => exact h
  | some v =>
    by_cases hv : v = "" <;> simp [hv, h]

/-- Resolution only inspects the entry stored under the resolved key. -/
theorem resolveArg_congr (a1 a2 : Args) (key dflt : String)
    (h : lookupArg a1 key = lookupArg a2 key) :
    resolveArg a1 key dflt = resolveArg a2 key dflt := by
  unfold resolveArg
  rw [h]

/-- Resolution at the head entry of the arguments with a truthy value
passes that value through. -/
theorem resolveArg_cons_self (rest : Args) (key dflt x : String) (hx : x ≠ "") :
    resolveArg ((key, x) :: rest) key dflt = x := by
  simp [resolveArg, lookupArg, hx]

/-- Resolution skips a head entry stored under a different key. -/
theorem resolveArg_cons_ne (rest : Args) (k v key dflt : String) (h : k ≠ key) :
    resolveArg ((k, v) :: rest) key dflt = resolveArg rest key dflt := by
  simp [resolveArg, lookupArg, h]

/-- The dispatcher's get_current_time branch reads the arguments only
through the resolved timezone and format. -/
theorem callToolBody_current_time_congr (p : Platform) (c : Clock) (k : Nat)
    (a1 a2 : Args)
    (htz : resolveArg a1 "timezone" "system" = resolveArg a2 "timezone" "system")
    (hfmt : resolveArg a1 "format" "12hour" = resolveArg a2 "format" "12hour") :
    callToolBody p c k "get_current_time" a1 = callToolBody p c k "get_current_time" a2 := by
  simp [callToolBody, htz, hfmt]

/-- The dispatcher's get_time_info branch reads the arguments only through
the resolved timezone. -/
theorem callToolBody_time_info_congr (p : Platform) (c : Clock) (k : Nat)
    (a1 a2 : Args)
    (htz : resolveArg a1 "timezone" "system" = resolveArg a2 "timezone" "system") :
    callToolBody p c k "get_time_info" a1 = callToolBody p c k "get_time_info" a2 := by
  simp [callToolBody, htz]

/-- Invocations with equal try-block results return equal envelopes. -/
theorem invoke_congr_of_body (p : Platform) (c : Clock) (name : String)
    (a1 a2 : Args) (h : callToolBody p c 0 name a1 = callToolBody p c 0 name a2) :
    invoke p c name a1 = invoke p c name a2 := by
  simp only [invoke, invokeImpl, h]

/-! Claim theorems. -/

/-- C2: for every operation name outside the catalog and all arguments,
the dispatcher returns a failure envelope whose text is exactly
"Error: Unknown tool: " followed by the name; the failure is converted at
the dispatcher boundary (invoke is total), never raised past it. -/
theorem c2_unknown_tool (p : Platform) (c : Clock) (name : String) (args : Args)
    (h1 : name ≠ "get_current_time") (h2 : name ≠ "get_time_info") :
    invoke p c name args = textEnvelope ("Error: Unknown tool: " ++ name) true := by
  simp only [invoke, invokeImpl, callToolBody, if_neg h1, if_neg h2]
  rw [show ("Error: Unknown tool: " : String) = "Error: " ++ "Unknown tool: " from rfl,
    String.append_assoc]

/-- Witness for C2 at the spec's own example input. -/
theorem c2_unknown_tool_witness :
    invoke testPlatform testClock "nonexistent_op" [] =
      textEnvelope ("Error: Unknown tool: " ++ "nonexistent_op") true :=
  c2_unknown_tool testPlatform testClock "nonexistent_op" [] (by decide) (by decide)

/-- C8: the operation catalog is constant (hence pure and deterministic
with no failure mode) and lists exactly two descriptors, get_current_time
first with parameters timezone (string, default "system") and format
(string, enum 12hour/24hour/iso, default "12hour"), get_time_info second
with parameter timezone (string, default "system"); each supported name
occurs in exactly one descriptor. -/
theorem c8_catalog_shape :
    listOperations.map (fun d => d.name) = ["get_current_time", "get_time_info"] ∧
    listOperations.map
        (fun d => d.params.map (fun q => (q.name, q.type, q.defaultValue, q.allowedValues))) =
      [ [ ("timezone", "string", some "system", none)
        , ("format", "string", some "12hour", some ["12hour", "24hour", "iso"]) ]
      , [ ("timezone", "string", some "system", none) ] ] ∧
    listOperations.countP (fun d => d.name == "get_current_time") = 1 ∧
    listOperations.countP (fun d => d.name == "get_time_info") = 1 := by
  refine ⟨rfl, rfl, rfl, rfl⟩

/-- C4: a declared parameter whose argument is missing or falsy (empty) is
replaced by its declared default ("system" for timezone, "12hour" for
format), any other value is passed through unchanged, and an invocation of
either tool behaves exactly as if called with only its declared parameters
already resolved. -/
theorem c4_falsy_defaults (p : Platform) (c : Clock) (args : Args) (v : String) :
    (lookupArg args "timezone" = none → resolveArg args "timezone" "system" = "system") ∧
    (lookupArg args "timezone" = some "" → resolveArg args "timezone" "system" = "system") ∧
    (lookupArg args "timezone" = some v → v ≠ "" → resolveArg args "timezone" "system" = v) ∧
    (lookupArg args "format" = none → resolveArg args "format" "12hour" = "12hour") ∧
    (lookupArg args "format" = some "" → resolveArg args "format" "12hour" = "12hour") ∧
    (lookupArg args "format" = some v → v ≠ "" → resolveArg args "format" "12hour" = v) ∧
    invoke p c "get_current_time" args =
      invoke p c "get_current_time"
        [ ("timezone", resolveArg args "timezone" "system")
        , ("format", resolveArg args "format" "12hour") ] ∧
    invoke p c "get_time_info" args =
      invoke p c "get_time_info" [("timezone", resolveArg args "timezone" "system")] := by
  have htzne : resolveArg args "timezone" "system" ≠ "" :=
    resolveArg_ne_empty args "timezone" "system" (by decide)
  have hfmtne : resolveArg args "format" "12hour" ≠ "" :=
    resolveArg_ne_empty args "format" "12hour" (by decide)
  refine ⟨fun h => by simp [resolveArg, h], fun h => by simp [resolveArg, h],
    fun h hv => by simp [resolveArg, h, hv],
    fun h => by simp [resolveArg, h], fun h => by simp [resolveArg, h],
    fun h hv => by simp [resolveArg, h, hv], ?_, ?_⟩
  · refine invoke_congr_of_body p c "get_current_time" _ _
      (callToolBody_current_time_congr p c 0 _ _ ?_ ?_)
    · exact (resolveArg_cons_self _ _ _ _ htzne).symm
    · rw [resolveArg_cons_ne _ _ _ _ _ (by decide)]
      exact (resolveArg_cons_self _ _ _ _ hfmtne).symm
  · refine invoke_congr_of_body p c "get_time_info" _ _
      (callToolBody_time_info_congr p c 0 _ _ ?_)
    exact (resolveArg_cons_self _ _ _ _ htzne).symm

/-- Witness for C4 with an empty-string timezone and a non-falsy format. -/
theorem c4_falsy_defaults_witness :
    resolveArg [("timezone", ""), ("format", "iso")] "timezone" "system" = "system" ∧
    resolveArg [("timezone", ""), ("format", "iso")] "format" "12hour" = "iso" :=
  ⟨(c4_falsy_defaults testPlatform testClock [("timezone", ""), ("format", "iso")] "iso").2.1
      (by decide),
   (c4_falsy_defaults testPlatform testClock [("timezone", ""), ("format", "iso")] "iso").2.2.2.2.2.1
      (by decide) (by decide)⟩

/-- C10: argument keys other than the declared parameters have no effect,
per operation: get_time_info declares only timezone, so any two argument
mappings agreeing on the "timezone" entry (and differing arbitrarily
elsewhere, the "format" key included) produce identical get_time_info
envelopes; get_current_time declares timezone and format, so agreement on
those two entries gives identical get_current_time envelopes — for the
same clock, hence at the same sampled instant. -/
theorem c10_undeclared_keys_no_effect (p : Platform) (c : Clock) (a1 a2 : Args)
    (htz : lookupArg a1 "timezone" = lookupArg a2 "timezone") :
    (lookupArg a1 "format" = lookupArg a2 "format" →
      invoke p c "get_current_time" a1 = invoke p c "get_current_time" a2) ∧
    invoke p c "get_time_info" a1 = invoke p c "get_time_info" a2 := by
  constructor
  · intro hfmt
    exact invoke_congr_of_body p c "get_current_time" a1 a2
      (callToolBody_current_time_congr p c 0 a1 a2
        (resolveArg_congr a1 a2 "timezone" "system" htz)
        (resolveArg_congr a1 a2 "format" "12hour" hfmt))
  · exact invoke_congr_of_body p c "get_time_info" a1 a2
      (callToolBody_time_info_congr p c 0 a1 a2
        (resolveArg_congr a1 a2 "timezone" "system" htz))

/-- Witness for C10: an extra junk key and a different entry order do not
change either tool's envelope, and two get_time_info invocations that
disagree on the undeclared "format" key still coincide. -/
theorem c10_undeclared_keys_no_effect_witness :
    invoke testPlatform testClock "get_current_time" [("timezone", "UTC"), ("junk", "x")] =
      invoke testPlatform testClock "get_current_time" [("extra", "y"), ("timezone", "UTC")] ∧
    invoke testPlatform testClock "get_time_info" [("timezone", "UTC"), ("format", "iso")] =
      invoke testPlatform testClock "get_time_info"
        [("timezone", "UTC"), ("format", "24hour"), ("junk", "x")] :=
  ⟨(c10_undeclared_keys_no_effect testPlatform testClock
      [("timezone", "UTC"), ("junk", "x")] [("extra", "y"), ("timezone", "UTC")]
      (by decide)).1 (by decide),
   (c10_undeclared_keys_no_effect testPlatform testClock
      [("timezone", "UTC"), ("format", "iso")]
      [("timezone", "UTC"), ("format", "24hour"), ("junk", "x")]
      (by decide)).2⟩


/-- C1: when the resolved timezone is neither "system" nor accepted by the
platform, get_current_time fails with a dispatcher-built failure envelope
(the handler does not catch the platform failure), while get_time_info
succeeds (isError false) with a record that carries
timezone_error = "Invalid timezone: " ++ tz and no timezone_time field. -/
theorem c1_invalid_timezone_asymmetry (p : Platform) (c : Clock) (args : Args)
    (tz : String) (htz : resolveArg args "timezone" "system" = tz)
    (hne : tz ≠ "system") (hbad : p.validTimezone tz = false) :
    invoke p c "get_current_time" args =
      textEnvelope ("Error: " ++ p.invalidTimezoneMessage tz) true ∧
    (invoke p c "get_current_time" args).isError = true ∧
    invoke p c "get_time_info" args =
      textEnvelope (jsonStringify2 (timeInfoBase p (c 0)
        ++ [("timezone_error", JVal.jstr ("Invalid timezone: " ++ tz))])) false ∧
    (invoke p c "get_time_info" args).isError = false ∧
    List.lookup "timezone_error" (timeInfoRecord p (c 0) tz) =
      some (JVal.jstr ("Invalid timezone: " ++ tz)) ∧
    List.lookup "timezone_time" (timeInfoRecord p (c 0) tz) = none := by
  have hrec : timeInfoRecord p (c 0) tz =
      timeInfoBase p (c 0)
        ++ [("timezone_error", JVal.jstr ("Invalid timezone: " ++ tz))] := by
    simp [timeInfoRecord, hne, hbad]
  have h1 : invoke p c "get_current_time" args =
      textEnvelope ("Error: " ++ p.invalidTimezoneMessage tz) true := by
    simp [invoke, invokeImpl, callToolBody, currentTimeString, newDate, htz, hne, hbad]
  have h2 : invoke p c "get_time_info" args =
      textEnvelope (jsonStringify2 (timeInfoBase p (c 0)
        ++ [("timezone_error", JVal.jstr ("Invalid timezone: " ++ tz))])) false := by
    simp [invoke, invokeImpl, callToolBody, newDate, htz, hrec]
  refine ⟨h1, by rw [h1]; rfl, h2, by rw [h2]; rfl, ?_, ?_⟩
  · rw [hrec]
    simp [timeInfoBase, List.lookup]
  · rw [hrec]
    simp [timeInfoBase, List.lookup]

/-- Witness for C1 at the invalid identifier Not/ARealZone. -/
theorem c1_invalid_timezone_asymmetry_witness :
    invoke testPlatform testClock "get_current_time" [("timezone", "Not/ARealZone")] =
      textEnvelope ("Error: " ++ testPlatform.invalidTimezoneMessage "Not/ARealZone") true ∧
    (invoke testPlatform testClock "get_current_time" [("timezone", "Not/ARealZone")]).isError
      = true ∧
    invoke testPlatform testClock "get_time_info" [("timezone", "Not/ARealZone")] =
      textEnvelope (jsonStringify2 (timeInfoBase testPlatform (testClock 0)
        ++ [("timezone_error", JVal.jstr ("Invalid timezone: " ++ "Not/ARealZone"))])) false ∧
    (invoke testPlatform testClock "get_time_info" [("timezone", "Not/ARealZone")]).isError
      = false ∧
    List.lookup "timezone_error" (timeInfoRecord testPlatform (testClock 0) "Not/ARealZone") =
      some (JVal.jstr ("Invalid timezone: " ++ "Not/ARealZone")) ∧
    List.lookup "timezone_time" (timeInfoRecord testPlatform (testClock 0) "Not/ARealZone") =
      none :=
  c1_invalid_timezone_asymmetry testPlatform testClock [("timezone", "Not/ARealZone")]
    "Not/ARealZone" (by decide) (by decide) (by decide)

/-- C5: for a resolved timezone other than "system" that the platform
accepts, get_current_time never takes the ISO branch: it returns the
named-zone localized rendering of the single sampled instant, with the
12-hour flag set exactly when the resolved format equals "12hour" (any
other format, "iso" included, selects 24-hour notation), wrapped as
"Current time: " followed by the time string. -/
theorem c5_named_timezone (p : Platform) (c : Clock) (args : Args) (tz : String)
    (htz : resolveArg args "timezone" "system" = tz)
    (hne : tz ≠ "system") (hok : p.validTimezone tz = true) :
    invoke p c "get_current_time" args =
      textEnvelope ("Current time: " ++
        p.formatWithTimezone tz (resolveArg args "format" "12hour" == "12hour") (c 0))
        false ∧
    ((resolveArg args "format" "12hour" == "12hour") = true ↔
      resolveArg args "format" "12hour" = "12hour") := by
  constructor
  · simp [invoke, invokeImpl, callToolBody, currentTimeString, newDate, htz, hne, hok]
  · exact beq_iff_eq

/-- Witness for C5 with timezone Asia/Tokyo and format iso (which selects
the 24-hour rendering, not the ISO branch). -/
theorem c5_named_timezone_witness :
    invoke testPlatform testClock "get_current_time"
        [("timezone", "Asia/Tokyo"), ("format", "iso")] =
      textEnvelope ("Current time: " ++
        testPlatform.formatWithTimezone "Asia/Tokyo"
          (resolveArg [("timezone", "Asia/Tokyo"), ("format", "iso")] "format" "12hour"
            == "12hour")
          (testClock 0)) false ∧
    ((resolveArg [("timezone", "Asia/Tokyo"), ("format", "iso")] "format" "12hour"
        == "12hour") = true ↔
      resolveArg [("timezone", "Asia/Tokyo"), ("format", "iso")] "format" "12hour"
        = "12hour") :=
  c5_named_timezone testPlatform testClock [("timezone", "Asia/Tokyo"), ("format", "iso")]
    "Asia/Tokyo" (by decide) (by decide) (by decide)

/-- C6: with the resolved timezone equal to "system", get_current_time
renders the single sampled instant as its ISO-8601 UTC representation when
the resolved format is "iso", as the 24-hour locale rendering when it is
"24hour", and as the 12-hour locale rendering (AM/PM) for every other
value, "12hour" and unrecognized strings alike. -/
theorem c6_system_timezone (p : Platform) (c : Clock) (args : Args)
    (htz : resolveArg args "timezone" "system" = "system") :
    (resolveArg args "format" "12hour" = "iso" →
      invoke p c "get_current_time" args =
        textEnvelope ("Current time: " ++ p.toISOString (c 0)) false) ∧
    (resolveArg args "format" "12hour" = "24hour" →
      invoke p c "get_current_time" args =
        textEnvelope ("Current time: " ++ p.toLocaleString24 (c 0)) false) ∧
    (resolveArg args "format" "12hour" ≠ "iso" →
      resolveArg args "format" "12hour" ≠ "24hour" →
      invoke p c "get_current_time" args =
        textEnvelope ("Current time: " ++ p.toLocaleString12 (c 0)) false) := by
  refine ⟨fun h => ?_, fun h => ?_, fun h1 h2 => ?_⟩
  · simp [invoke, invokeImpl, callToolBody, currentTimeString, newDate, htz, h]
  · simp [invoke, invokeImpl, callToolBody, currentTimeString, newDate, htz, h]
  · simp [invoke, invokeImpl, callToolBody, currentTimeString, newDate, htz, h1, h2]

/-- Witness for C6 with no arguments: both parameters default, the
12-hour locale branch is taken. -/
theorem c6_system_timezone_witness :
    invoke testPlatform testClock "get_current_time" [] =
      textEnvelope ("Current time: " ++ testPlatform.toLocaleString12 (testClock 0))
        false :=
  (c6_system_timezone testPlatform testClock [] (by decide)).2.2 (by decide) (by decide)

/-- C7: every get_time_info invocation succeeds with the record of the
single sampled instant serialized by the 2-space JSON renderer; the twelve
timezone-independent fields appear in the order timestamp, iso_string,
local_time, day_of_week, date, year, month (1-based), day, hour, minute,
second, timezone_offset, and the timezone-dependent fields (timezone_time
and requested_timezone, or timezone_error) are appended after them exactly
when the resolved timezone is not "system"; the renderer indents each
field by two spaces. -/
theorem c7_time_info_serialization (p : Platform) (c : Clock) (args : Args)
    (tz : String) (htz : resolveArg args "timezone" "system" = tz) :
    invoke p c "get_time_info" args =
      textEnvelope (jsonStringify2 (timeInfoRecord p (c 0) tz)) false ∧
    (timeInfoBase p (c 0)).map Prod.fst =
      [ "timestamp", "iso_string", "local_time", "day_of_week", "date", "year"
      , "month", "day", "hour", "minute", "second", "timezone_offset" ] ∧
    (timeInfoBase p (c 0)).map Prod.snd =
      [ JVal.jint (c 0).ms, JVal.jstr (p.toISOString (c 0))
      , JVal.jstr (p.toLocaleStringDefault (c 0)), JVal.jstr (p.weekdayLong (c 0))
      , JVal.jstr (p.localeDateString (c 0)), JVal.jint (p.getFullYear (c 0))
      , JVal.jint (p.getMonth (c 0) + 1), JVal.jint (p.getDate (c 0))
      , JVal.jint (p.getHours (c 0)), JVal.jint (p.getMinutes (c 0))
      , JVal.jint (p.getSeconds (c 0)), JVal.jint (p.getTimezoneOffset (c 0)) ] ∧
    (tz = "system" → timeInfoRecord p (c 0) tz = timeInfoBase p (c 0)) ∧
    (tz ≠ "system" → p.validTimezone tz = true →
      timeInfoRecord p (c 0) tz = timeInfoBase p (c 0)
        ++ [ ("timezone_time", JVal.jstr (p.formatWithTimezoneName tz (c 0)))
           , ("requested_timezone", JVal.jstr tz) ]) ∧
    (tz ≠ "system" → p.validTimezone tz = false →
      timeInfoRecord p (c 0) tz = timeInfoBase p (c 0)
        ++ [("timezone_error", JVal.jstr ("Invalid timezone: " ++ tz))]) ∧
    jsonStringify2 [("a", JVal.jint 1), ("b", JVal.jstr "x")] =
      "\x7b\n  \"a\": 1,\n  \"b\": \"x\"\n\x7d" := by
  refine ⟨?_, rfl, rfl, fun h => ?_, fun h1 h2 => ?_, fun h1 h2 => ?_, rfl⟩
  · simp [invoke, invokeImpl, callToolBody, newDate, htz]
  · simp [timeInfoRecord, h]
  · simp [timeInfoRecord, h1, h2]
  · simp [timeInfoRecord, h1, h2]

/-- Witness for C7 with the valid named timezone UTC. -/
theorem c7_time_info_serialization_witness :
    invoke testPlatform testClock "get_time_info" [("timezone", "UTC")] =
      textEnvelope (jsonStringify2 (timeInfoRecord testPlatform (testClock 0) "UTC"))
        false ∧
    timeInfoRecord testPlatform (testClock 0) "UTC" =
      timeInfoBase testPlatform (testClock 0)
        ++ [ ("timezone_time"
             , JVal.jstr (testPlatform.formatWithTimezoneName "UTC" (testClock 0)))
           , ("requested_timezone", JVal.jstr "UTC") ] :=
  ⟨(c7_time_info_serialization testPlatform testClock [("timezone", "UTC")] "UTC"
      (by decide)).1,
   (c7_time_info_serialization testPlatform testClock [("timezone", "UTC")] "UTC"
      (by decide)).2.2.2.2.1 (by decide) (by decide)⟩

/-- C3: every invocation returns a well-formed envelope containing exactly
one content item, of type "text"; and whenever the try-block throws, the
dispatcher's catch-all converts the failure into an envelope whose text is
"Error: " followed by the message, so no failure escapes invoke. -/
theorem c3_uniform_envelope (p : Platform) (c : Clock) (name : String) (args : Args) :
    (∃ t, (invoke p c name args).content = [{ type := "text", text := t }]) ∧
    (∀ msg k, callToolBody p c 0 name args = (Except.error msg, k) →
      invoke p c name args = textEnvelope ("Error: " ++ msg) true) := by
  constructor
  · by_cases hn1 : name = "get_current_time"
    · subst hn1
      rcases hct : currentTimeString p (c 0) (resolveArg args "timezone" "system")
          (resolveArg args "format" "12hour") with e | ts
      · refine ⟨"Error: " ++ e, ?_⟩
        simp [invoke, invokeImpl, callToolBody, newDate, hct, textEnvelope]
      · refine ⟨"Current time: " ++ ts, ?_⟩
        simp [invoke, invokeImpl, callToolBody, newDate, hct, textEnvelope]
    · by_cases hn2 : name = "get_time_info"
      · subst hn2
        refine ⟨jsonStringify2 (timeInfoRecord p (c 0) (resolveArg args "timezone" "system")),
          ?_⟩
        simp [invoke, invokeImpl, callToolBody, newDate, textEnvelope]
      · refine ⟨"Error: " ++ ("Unknown tool: " ++ name), ?_⟩
        simp [invoke, invokeImpl, callToolBody, hn1, hn2, textEnvelope]
  · intro msg k h
    simp [invoke, invokeImpl, h]

/-- Witness for C3 on a thrown unknown-tool failure. -/
theorem c3_uniform_envelope_witness :
    (∃ t, (invoke testPlatform testClock "nope" []).content
      = [{ type := "text", text := t }]) ∧
    invoke testPlatform testClock "nope" [] =
      textEnvelope ("Error: " ++ "Unknown tool: nope") true :=
  ⟨(c3_uniform_envelope testPlatform testClock "nope" []).1,
   (c3_uniform_envelope testPlatform testClock "nope" []).2
     ("Unknown tool: " ++ "nope") 0 rfl⟩

/-- C9: each of the two tools samples the clock exactly once per
invocation, and its whole envelope is determined by that first sample:
two clocks that agree at sample index 0 produce identical envelopes. -/
theorem c9_single_sample (p : Platform) (c1 c2 : Clock) (args : Args)
    (h : c1 0 = c2 0) :
    invoke p c1 "get_current_time" args = invoke p c2 "get_current_time" args ∧
    invoke p c1 "get_time_info" args = invoke p c2 "get_time_info" args ∧
    sampleCount p c1 "get_current_time" args = 1 ∧
    sampleCount p c1 "get_time_info" args = 1 := by
  refine ⟨?_, ?_, ?_, ?_⟩
  · simp [invoke, invokeImpl, callToolBody, newDate, h]
  · simp [invoke, invokeImpl, callToolBody, newDate, h]
  · rcases hct : currentTimeString p (c1 0) (resolveArg args "timezone" "system")
        (resolveArg args "format" "12hour") with e | ts <;>
      simp [sampleCount, invokeImpl, callToolBody, newDate, hct]
  · simp [sampleCount, invokeImpl, callToolBody, newDate]

/-- Witness for C9: two identical clocks trivially agree at index 0. -/
theorem c9_single_sample_witness :
    invoke testPlatform testClock "get_current_time" [] =
      invoke testPlatform testClock "get_current_time" [] ∧
    invoke testPlatform testClock "get_time_info" [] =
      invoke testPlatform testClock "get_time_info" [] ∧
    sampleCount testPlatform testClock "get_current_time" [] = 1 ∧
    sampleCount testPlatform testClock "get_time_info" [] = 1 :=
  c9_single_sample testPlatform testClock testClock [] rfl

end TimeServer
